import Mathlib

/-!
# Axvisor build-orchestrator scripts: a shallow embedding

Shallow embedding of the axvisor task scripts (`scripts/build.py`,
`scripts/run.py`, `scripts/clean.py`, `scripts/clippy.py`,
`scripts/disk_img.py`, `scripts/setup.py`) in Lean 4.

External collaborators (the `setup_arceos` dependency gate, the
`subprocess.run` process spawner, the `save_config_to_file` persistence
call, and the command renderer from the missing `scripts/config.py`
module) are modelled as parameters: a boolean result for the dependency
gate and the persistence call, an `ExecOutcome` for each process
invocation, and an opaque base command list for the renderer. Each
script's `main` is a pure function from those parameters to a trace of
observable effects plus an exit code.
-/

namespace Axvisor

/-- Outcome of one `subprocess.run(cmd, shell=True, check=True)` call:
the process exited 0 (`success`), raised `CalledProcessError` with a
non-zero return code (`exit c`), or raised some other exception while
spawning (`spawnError`). -/
inductive ExecOutcome where
  | success
  | exit (code : Int)
  | spawnError
deriving Repr, DecidableEq

/-- One resolved matrix cell of the clippy sweep (`scripts/clippy.py`
lines 82-90): the platform feature, the optional `--target` triple, and
the combined feature list `[plat] + non_plat_features`. -/
structure MatrixCell where
  plat : String
  target : Option String
  combined_features : List String
deriving Repr, DecidableEq

/-- Observable effects of a script run: process invocations of the
build tool and the config-persistence call (with its boolean result). -/
inductive Event where
  | execBuild
  | saveConfig (ok : Bool)
  | execRun
  | execClean
  | execDiskImg (cmd : String)
  | execClippySingle
  | execClippyCell (cell : MatrixCell)
deriving Repr, DecidableEq

/-! ## Feature-matrix resolution (`scripts/clippy.py`) -/

/-- Python `s.startswith(pre)`: the characters of `pre` are a prefix of
the characters of `s`. -/
def pyStartsWith (s pre : String) : Bool :=
  pre.data.isPrefixOf s.data

/-- The character-level worker of Python `s.split(sep)` for a one-char
separator: pieces between separator occurrences, empty pieces kept, one
empty piece for the empty input. -/
def splitChar (sep : Char) : List Char → List (List Char)
  | [] => [[]]
  | c :: rest =>
      let ps := splitChar sep rest
      if c = sep then [] :: ps
      else
        match ps with
        | [] => [[c]]
        | piece :: pieces => (c :: piece) :: pieces

/-- Python `s.split(sep)` for a one-char separator. -/
def pySplit (sep : Char) (s : String) : List String :=
  (splitChar sep s.data).map String.mk

/-- `plat_features = [f for f in all_features if f.startswith("plat-")]`
(`clippy.py` line 47). -/
def platFeatures (all : List String) : List String :=
  all.filter (fun f => pyStartsWith f "plat-")

/-- `non_plat_features = [f for f in all_features if not f.startswith("plat-")]`
(`clippy.py` line 49). -/
def nonPlatFeatures (all : List String) : List String :=
  all.filter (fun f => !(pyStartsWith f "plat-"))

/-- The static `arch_target_map` of `clippy.py` lines 73-79; `.get`
returns `none` for keys not in the table. -/
def archTargetMap (arch : String) : Option String :=
  if arch = "aarch64" then some "aarch64-unknown-none-softfloat"
  else if arch = "x86" then some "x86_64-unknown-none"
  else if arch = "x86_64" then some "x86_64-unknown-none"
  else if arch = "riscv64" then some "riscv64gc-unknown-none-elf"
  else if arch = "riscv" then some "riscv64gc-unknown-none-elf"
  else none

/-- `parts = plat.split("-"); arch_token = parts[1] if len(parts) > 1 else None`
(`clippy.py` lines 84-85). -/
def extractArchToken (plat : String) : Option String :=
  let parts := pySplit '-' plat
  if h : parts.length > 1 then some (parts.get ⟨1, h⟩) else none

/-- `target = arch_target_map.get(arch_token) if arch_token else None`
(`clippy.py` line 86). -/
def archTargetOf (plat : String) : Option String :=
  (extractArchToken plat).bind archTargetMap

/-- Build the matrix cell for one platform feature: the target from the
arch table and `features_to_use = [plat] + non_plat_features`
(`clippy.py` lines 84-89). -/
def cellFor (nonPlat : List String) (plat : String) : MatrixCell :=
  { plat := plat
    target := archTargetOf plat
    combined_features := plat :: nonPlat }

/-- The resolved sweep: one cell per `plat-` feature, in manifest order
(`clippy.py` line 82, `for plat in plat_features`). -/
def resolveCells (features : List String) : List MatrixCell :=
  (platFeatures features).map (cellFor (nonPlatFeatures features))

/-- The single-pass cargo command of the degenerate branch (`clippy.py`
lines 55-59): all features joined with commas, no `--target`. -/
def singlePassCmd (all : List String) : List String :=
  let features_arg := ",".intercalate all
  ["cargo", "clippy"]
    ++ (if features_arg ≠ "" then ["--features", "\"" ++ features_arg ++ "\""] else [])

/-- The per-cell cargo command of the matrix branch (`clippy.py` lines
90-104): optional `--target`, comma-joined combined features, then
`-- -D warnings`. -/
def cellCmd (cell : MatrixCell) : List String :=
  let features_arg := ",".intercalate cell.combined_features
  ["cargo", "clippy"]
    ++ (match cell.target with
        | some t => ["--target", t]
        | none => [])
    ++ (if features_arg ≠ "" then ["--features", "\"" ++ features_arg ++ "\""] else [])
    ++ ["--", "-D", "warnings"]

/-- The branch taken by `clippy.main` after parsing: single pass when no
`plat-` feature exists (`clippy.py` line 51), matrix sweep otherwise. -/
inductive ClippyPlan where
  | singlePass (features : List String)
  | matrix (cells : List MatrixCell)
deriving Repr, DecidableEq

/-- Which plan `clippy.main` follows for a manifest feature list. -/
def clippyPlan (features : List String) : ClippyPlan :=
  if platFeatures features = [] then .singlePass features
  else .matrix (resolveCells features)

/-! ## The matrix sweep loop (`clippy.py` lines 81-119) -/

/-- `cellFailed o` is true exactly when the `try` body of the loop set
`any_failure = True` for this cell: a `CalledProcessError` or any other
exception; a clean exit leaves the flag alone. -/
def cellFailed : ExecOutcome → Bool
  | .success => false
  | .exit _ => true
  | .spawnError => true

/-- The `for plat in plat_features` loop: every cell is executed (the
loop body catches all exceptions and never breaks), the outcomes are
recorded in order, and `any_failure` is the OR of the per-cell failure
flags. -/
def matrixSweep (runCell : MatrixCell → ExecOutcome) :
    List MatrixCell → List (MatrixCell × ExecOutcome) × Bool
  | [] => ([], false)
  | c :: rest =>
      let o := runCell c
      let (trace, anyF) := matrixSweep runCell rest
      ((c, o) :: trace, cellFailed o || anyF)

/-! ## Script entry points -/

/-- `build.main` (`scripts/build.py`): checks whether the config file
exists, runs the dependency gate, invokes the make command, and on
success creates the config file when it was missing; a
`CalledProcessError` propagates its return code, any other exception
yields 1. `save_ok` is the boolean result of `save_config_to_file`; it
only changes the printed message, never the return value. -/
def buildMain (config_exists setup_ok : Bool) (make_result : ExecOutcome)
    (save_ok : Bool) : List Event × Int :=
  if !setup_ok then ([], 1)
  else
    match make_result with
    | .success =>
        (Event.execBuild :: (if config_exists then [] else [Event.saveConfig save_ok]), 0)
    | .exit c => ([Event.execBuild], c)
    | .spawnError => ([Event.execBuild], 1)

/-- `run.main` (`scripts/run.py`): builds first via `build.main`; a
non-zero build result is returned unchanged and the run command is not
executed; otherwise the `make run` command is invoked. -/
def runMain (config_exists setup_ok : Bool) (make_result : ExecOutcome)
    (save_ok : Bool) (run_result : ExecOutcome) : List Event × Int :=
  let b := buildMain config_exists setup_ok make_result save_ok
  if b.2 ≠ 0 then b
  else
    match run_result with
    | .success => (b.1 ++ [Event.execRun], 0)
    | .exit c => (b.1 ++ [Event.execRun], c)
    | .spawnError => (b.1 ++ [Event.execRun], 1)

/-! ## POSIX path handling (`os.path` as used by `scripts/disk_img.py`)

`disk_img.py` runs on the POSIX path rules: `os.path.isabs`,
`os.path.join` and `os.path.abspath` (which is `normpath` of the
`join` with the working directory). Each is embedded below, following
the CPython `posixpath` implementation. -/

/-- `os.path.isabs(p)`: `p.startswith("/")`, modelled on the character
list. -/
def isabs (p : String) : Bool :=
  match p.data with
  | c :: _ => c == '/'
  | [] => false

/-- `p.startswith("//")`. -/
def startsSlash2 (p : String) : Bool :=
  match p.data with
  | c :: d :: _ => c == '/' && d == '/'
  | _ => false

/-- `p.startswith("///")`. -/
def startsSlash3 (p : String) : Bool :=
  match p.data with
  | c :: d :: e :: _ => c == '/' && d == '/' && e == '/'
  | _ => false

/-- `p.endswith("/")`. -/
def endsSlash (p : String) : Bool :=
  p.data.getLast? = some '/'

/-- `os.path.join(a, b)` for two arguments (POSIX): `b` if `b` is
absolute; `a + b` when `a` is empty or ends with the separator;
otherwise `a + "/" + b`. -/
def pjoin (a b : String) : String :=
  if isabs b then b
  else if a = "" ∨ endsSlash a then a ++ b
  else a ++ "/" ++ b

/-- The component loop of `posixpath.normpath`: drop empty and `"."`
components; a `".."` is appended when the path is relative and nothing
was collected yet or the last collected component is `".."`, pops the
last component when one exists, and is dropped at an absolute root. -/
def normpathComps (initialSlashes : Nat) (comps : List String) : List String :=
  comps.foldl
    (fun acc comp =>
      if comp = "" ∨ comp = "." then acc
      else if comp ≠ ".." ∨ (initialSlashes = 0 ∧ acc = []) ∨ acc.getLast? = some ".." then
        acc ++ [comp]
      else if acc ≠ [] then acc.dropLast
      else acc)
    []

/-- `posixpath.normpath(p)`: empty input gives `"."`; one or (exactly)
two leading slashes are preserved; components are normalized by
`normpathComps`; an empty result gives `"."`. -/
def normpath (p : String) : String :=
  if p = "" then "."
  else
    let initialSlashes : Nat :=
      if isabs p then (if startsSlash2 p ∧ ¬ startsSlash3 p then 2 else 1) else 0
    let comps := normpathComps initialSlashes (pySplit '/' p)
    let result := String.mk (List.replicate initialSlashes '/') ++ "/".intercalate comps
    if result = "" then "." else result

/-- `os.path.abspath(p)` with working directory `cwd`: `normpath(p)` if
`p` is absolute, else `normpath(join(cwd, p))`. -/
def abspath (cwd p : String) : String :=
  if isabs p then normpath p else normpath (pjoin cwd p)

/-- The command list built by `disk_img.main` (`disk_img.py` lines
21-33): the renderer's base command (from the missing `config` module,
taken as a parameter), then `DISK_IMG=<path>` when `args.image` is a
non-empty string — with a relative path replaced by
`os.path.abspath(os.path.join(os.getcwd(), image))` — then `disk_img`. -/
def diskImgCmdParts (base : List String) (cwd image : String) : List String :=
  (base
      ++ (if image ≠ "" then
            let image_path := if !(isabs image) then abspath cwd (pjoin cwd image) else image
            ["DISK_IMG=" ++ image_path]
          else []))
    ++ ["disk_img"]

/-- `disk_img.main` (`scripts/disk_img.py`): dependency gate, command
assembly, then the `make ... disk_img` invocation. -/
def diskImgMain (base : List String) (cwd image : String) (setup_ok : Bool)
    (result : ExecOutcome) : List Event × Int :=
  if !setup_ok then ([], 1)
  else
    let cmd := " ".intercalate (diskImgCmdParts base cwd image)
    match result with
    | .success => ([Event.execDiskImg cmd], 0)
    | .exit c => ([Event.execDiskImg cmd], c)
    | .spawnError => ([Event.execDiskImg cmd], 1)

/-- `clean.main` (`scripts/clean.py`): dependency gate, then the
`make clean` command. -/
def cleanMain (setup_ok : Bool) (clean_result : ExecOutcome) : List Event × Int :=
  if !setup_ok then ([], 1)
  else
    match clean_result with
    | .success => ([Event.execClean], 0)
    | .exit c => ([Event.execClean], c)
    | .spawnError => ([Event.execClean], 1)

/-- `clippy.main` (`scripts/clippy.py`): dependency gate, Cargo.toml
existence / toml-package / parse checks (each failure returns 1), then
either the single clippy pass (whose non-zero exit code is propagated)
or the matrix sweep (which returns `1 if any_failure else 0`). -/
def clippyMain (setup_ok cargo_toml_exists toml_pkg parse_ok : Bool)
    (features : List String) (run_single : ExecOutcome)
    (runCell : MatrixCell → ExecOutcome) : List Event × Int :=
  if !setup_ok then ([], 1)
  else if !cargo_toml_exists then ([], 1)
  else if !toml_pkg then ([], 1)
  else if !parse_ok then ([], 1)
  else if platFeatures features = [] then
    match run_single with
    | .success => ([Event.execClippySingle], 0)
    | .exit c => ([Event.execClippySingle], c)
    | .spawnError => ([Event.execClippySingle], 1)
  else
    let s := matrixSweep runCell (resolveCells features)
    (s.1.map (fun p => Event.execClippyCell p.1), if s.2 then 1 else 0)

/-! ## Helper lemmas -/

/-- The matrix sweep's trace lists exactly the given cells, in order,
each with its outcome; `any_failure` is false iff no cell failed. -/
theorem matrixSweep_spec (runCell : MatrixCell → ExecOutcome) (cells : List MatrixCell) :
    (matrixSweep runCell cells).1.map Prod.fst = cells ∧
    (matrixSweep runCell cells).1.map Prod.snd = cells.map runCell ∧
    ((matrixSweep runCell cells).2 = false ↔
      ∀ c ∈ cells, cellFailed (runCell c) = false) := by
  induction cells with
  | nil => simp [matrixSweep]
  | cons c rest ih =>
    obtain ⟨h1, h2, h3⟩ := ih
    refine ⟨?_, ?_, ?_⟩
    · simp [matrixSweep, h1]
    · simp [matrixSweep, h2]
    · simp only [matrixSweep, Bool.or_eq_false_iff, h3, List.forall_mem_cons]

/-- A double-quoted string never equals a string starting with a dash. -/
theorem quoted_ne_dash (s t : String) (h : t.data.head? = some '-') :
    "\"" ++ s ++ "\"" ≠ t := by
  intro he
  have hq : ("\"" ++ s ++ "\"").data.head? = some '"' := by
    rw [String.data_append, String.data_append]
    rfl
  rw [he, h] at hq
  exact absurd (Option.some.inj hq) (by decide)

/-- Appending on the right preserves absoluteness. -/
theorem isabs_append (a b : String) (h : isabs a = true) : isabs (a ++ b) = true := by
  unfold isabs at h ⊢
  rw [String.data_append]
  cases hd : a.data with
  | nil => rw [hd] at h; exact absurd h (by decide)
  | cons c rest =>
    rw [hd] at h
    rw [List.cons_append]
    exact h

/-- `os.path.join` of an absolute directory with any second component
yields an absolute path. -/
theorem isabs_pjoin (a b : String) (h : isabs a = true) : isabs (pjoin a b) = true := by
  unfold pjoin
  split
  · next habs => exact habs
  · split
    · exact isabs_append a b h
    · exact isabs_append _ _ (isabs_append a "/" h)

/-- `normpath` of an absolute path is absolute. -/
theorem isabs_normpath (p : String) (h : isabs p = true) : isabs (normpath p) = true := by
  have hp : p ≠ "" := by
    intro he
    rw [he] at h
    exact absurd h (by decide)
  unfold normpath
  rw [if_neg hp]
  simp only [h, if_true]
  split
  · have hres : isabs (String.mk (List.replicate 2 '/') ++
        "/".intercalate (normpathComps 2 (pySplit '/' p))) = true :=
      isabs_append _ _ (by decide)
    split
    · next he => rw [he] at hres; exact absurd hres (by decide)
    · exact hres
  · have hres : isabs (String.mk (List.replicate 1 '/') ++
        "/".intercalate (normpathComps 1 (pySplit '/' p))) = true :=
      isabs_append _ _ (by decide)
    split
    · next he => rw [he] at hres; exact absurd hres (by decide)
    · exact hres

/-- `--target` never appears in the optional `--features` segment of a
rendered cargo command. -/
theorem target_notin_features_opt (fa : String) (cond : Prop) [Decidable cond] :
    "--target" ∉ (if cond then ["--features", "\"" ++ fa ++ "\""] else ([] : List String)) := by
  split
  · intro hm
    rcases List.mem_cons.mp hm with he | h3
    · exact absurd he (by decide)
    · exact quoted_ne_dash fa "--target" rfl (List.mem_singleton.mp h3).symm
  · exact List.not_mem_nil _

/-! ## Claims -/

/-- C1: for the manifest feature set
`["plat-aarch64-qemu", "plat-x86_64-pc", "fs"]` the feature-matrix
resolution yields exactly two cells — `{plat-aarch64-qemu, fs}` with
target `aarch64-unknown-none-softfloat` and `{plat-x86_64-pc, fs}` with
target `x86_64-unknown-none` — the arch token being the second
`-`-separated segment of each platform feature name. -/
theorem clippy_matrix_two_cells :
    resolveCells ["plat-aarch64-qemu", "plat-x86_64-pc", "fs"] =
      [⟨"plat-aarch64-qemu", some "aarch64-unknown-none-softfloat",
          ["plat-aarch64-qemu", "fs"]⟩,
       ⟨"plat-x86_64-pc", some "x86_64-unknown-none", ["plat-x86_64-pc", "fs"]⟩] ∧
    extractArchToken "plat-aarch64-qemu" = some "aarch64" ∧
    extractArchToken "plat-x86_64-pc" = some "x86_64" := by
  decide

/-- C2: the matrix sweep is fail-soft with aggregate-at-end — every
cell is attempted regardless of earlier failures, each failure is
recorded without stopping iteration, and the sweep's result (and the
clippy exit code derived from it) is success iff every cell
succeeded. -/
theorem matrix_sweep_fail_soft (runCell : MatrixCell → ExecOutcome)
    (cells : List MatrixCell) :
    (matrixSweep runCell cells).1.map Prod.fst = cells ∧
    (matrixSweep runCell cells).1.map Prod.snd = cells.map runCell ∧
    ((matrixSweep runCell cells).2 = false ↔
      ∀ c ∈ cells, cellFailed (runCell c) = false) ∧
    ((if (matrixSweep runCell cells).2 then (1 : Int) else 0) = 0 ↔
      ∀ c ∈ cells, cellFailed (runCell c) = false) := by
  obtain ⟨h1, h2, h3⟩ := matrixSweep_spec runCell cells
  refine ⟨h1, h2, h3, ?_⟩
  rw [← h3]
  cases (matrixSweep runCell cells).2 <;> simp

/-- C3 counterexample: in the clippy matrix sweep the external tool's
non-zero exit code is not propagated — with one cell whose cargo
invocation exits 101, `clippy.main` returns the generic code 1, so the
exit code is replaced rather than propagated. -/
theorem clippy_matrix_swallows_exit_code :
    (clippyMain true true true true ["plat-aarch64-qemu"] ExecOutcome.success
        (fun _ => ExecOutcome.exit 101)).2 = 1 ∧
    ((1 : Int) ≠ 101) := by
  decide

/-- C3 amended: the build, clean, disk_img and run operations, and the
single-pass clippy branch, propagate the external tool's non-zero exit
code as the operation's result code; the multi-cell clippy matrix sweep
instead aggregates cell failures and returns the generic code 1
whenever any cell failed. -/
theorem exit_code_propagated (c : Int) (_hc : c ≠ 0) (ce sv : Bool)
    (base : List String) (cwd img : String) (features : List String)
    (runCell : MatrixCell → ExecOutcome) :
    (buildMain ce true (ExecOutcome.exit c) sv).2 = c ∧
    (cleanMain true (ExecOutcome.exit c)).2 = c ∧
    (diskImgMain base cwd img true (ExecOutcome.exit c)).2 = c ∧
    (runMain ce true ExecOutcome.success sv (ExecOutcome.exit c)).2 = c ∧
    (platFeatures features = [] →
      (clippyMain true true true true features (ExecOutcome.exit c) runCell).2 = c) ∧
    ((∃ cell ∈ resolveCells features, cellFailed (runCell cell) = true) →
      platFeatures features ≠ [] →
      (clippyMain true true true true features ExecOutcome.success runCell).2 = 1) := by
  refine ⟨by simp [buildMain], by simp [cleanMain], by simp [diskImgMain], ?_, ?_, ?_⟩
  · simp [runMain, buildMain]
  · intro h
    simp [clippyMain, h]
  · intro hfail hplat
    have hsweep := (matrixSweep_spec runCell (resolveCells features)).2.2
    have hany : (matrixSweep runCell (resolveCells features)).2 = true := by
      cases hb : (matrixSweep runCell (resolveCells features)).2
      · obtain ⟨cell, hmem, hf⟩ := hfail
        have := (hsweep.mp hb) cell hmem
        rw [hf] at this
        exact absurd this (by decide)
      · rfl
    simp [clippyMain, hplat, hany]

/-- C4: no resolved matrix cell contains two distinct platform-scoped
features — every cell's combined feature list is exactly its one
platform feature followed by all non-platform features, and filtering
the combined features for the `plat-` prefix leaves only that one
feature. -/
theorem cell_single_platform (features : List String) (cell : MatrixCell)
    (h : cell ∈ resolveCells features) :
    cell.combined_features = cell.plat :: nonPlatFeatures features ∧
    cell.combined_features.filter (fun f => pyStartsWith f "plat-") = [cell.plat] := by
  obtain ⟨plat, hplat, hcell⟩ := List.mem_map.mp h
  subst hcell
  have hpre : pyStartsWith plat "plat-" = true :=
    (List.mem_filter.mp hplat).2
  refine ⟨rfl, ?_⟩
  have hnil : (nonPlatFeatures features).filter (fun f => pyStartsWith f "plat-") = [] := by
    unfold nonPlatFeatures
    rw [List.filter_filter]
    have hfalse : ∀ f : String,
        (pyStartsWith f "plat-" && !(pyStartsWith f "plat-")) = false := by
      intro f
      cases pyStartsWith f "plat-" <;> rfl
    simp only [hfalse, List.filter_false]
  show (plat :: nonPlatFeatures features).filter (fun f => pyStartsWith f "plat-") = [plat]
  rw [List.filter_cons]
  simp [hpre, hnil]

/-- C5: when the manifest declares no `plat-` feature, clippy runs the
degenerate single pass — one invocation, no `--target` override, with
the full manifest feature set — and exactly one process execution
happens. -/
theorem no_plat_single_pass (features : List String)
    (h : platFeatures features = []) (run_single : ExecOutcome)
    (runCell : MatrixCell → ExecOutcome) :
    clippyPlan features = ClippyPlan.singlePass features ∧
    "--target" ∉ singlePassCmd features ∧
    (clippyMain true true true true features run_single runCell).1 =
      [Event.execClippySingle] := by
  refine ⟨by simp [clippyPlan, h], ?_, ?_⟩
  · intro hmem
    simp only [singlePassCmd] at hmem
    rcases List.mem_append.mp hmem with h2 | h2
    · exact absurd h2 (by decide)
    · exact target_notin_features_opt _ _ h2
  · cases run_single <;> simp [clippyMain, h]

/-- C6: a platform feature whose arch token is unknown to the static
table does not fail resolution — its cell is still produced, carries no
target override, and its rendered command has no `--target` flag. -/
theorem unknown_arch_no_target (features : List String) (plat : String)
    (hmem : plat ∈ platFeatures features) (hnone : archTargetOf plat = none) :
    cellFor (nonPlatFeatures features) plat ∈ resolveCells features ∧
    (cellFor (nonPlatFeatures features) plat).target = none ∧
    "--target" ∉ cellCmd (cellFor (nonPlatFeatures features) plat) := by
  refine ⟨List.mem_map_of_mem _ hmem, hnone, ?_⟩
  intro hm
  simp only [cellCmd, cellFor, hnone, List.nil_append] at hm
  rcases List.mem_append.mp hm with hm | hm
  · rcases List.mem_append.mp hm with hm | hm
    · exact absurd hm (by decide)
    · exact target_notin_features_opt _ _ hm
  · exact absurd hm (by decide)

/-- C7: when the dependency-setup collaborator reports failure, every
operation — build, run, clean, disk_img and clippy — returns the
non-zero code 1 immediately with an empty effect trace, so no
build-tool process execution occurs. -/
theorem setup_gate_blocks (ce sv : Bool) (mr rr cr dr : ExecOutcome)
    (base : List String) (cwd img : String) (cte tp po : Bool)
    (features : List String) (rs : ExecOutcome)
    (runCell : MatrixCell → ExecOutcome) :
    buildMain ce false mr sv = ([], 1) ∧
    runMain ce false mr sv rr = ([], 1) ∧
    cleanMain false cr = ([], 1) ∧
    diskImgMain base cwd img false dr = ([], 1) ∧
    clippyMain false cte tp po features rs runCell = ([], 1) := by
  exact ⟨rfl, by simp [runMain, buildMain], rfl, rfl, rfl⟩

/-- C8: the config file is saved exactly when the dependency gate
passed, the build succeeded and no config file existed at the start of
the invocation; the save happens after the build execution; and a
failed save still leaves the build returning 0. -/
theorem config_persist_lifecycle (ce so sv : Bool) (mr : ExecOutcome) :
    (Event.saveConfig sv ∈ (buildMain ce so mr sv).1 ↔
      so = true ∧ mr = ExecOutcome.success ∧ ce = false) ∧
    (buildMain ce true ExecOutcome.success sv).1 =
      Event.execBuild :: (if ce then [] else [Event.saveConfig sv]) ∧
    (buildMain ce true ExecOutcome.success sv).2 = 0 := by
  cases so <;> cases ce <;> cases mr <;> simp [buildMain]

/-- C9: in the disk_img command, a relative (non-empty) image path is
replaced by the normalization of the path joined onto the invocation's
working directory — an absolute path — before inclusion as the
`DISK_IMG=` argument, while an already-absolute image path is included
unchanged. -/
theorem disk_img_path_normalized (base : List String) (cwd image : String)
    (hcwd : isabs cwd = true) :
    (isabs image = false → image ≠ "" →
      diskImgCmdParts base cwd image =
        base ++ ["DISK_IMG=" ++ normpath (pjoin cwd image), "disk_img"] ∧
      isabs (normpath (pjoin cwd image)) = true) ∧
    (isabs image = true →
      diskImgCmdParts base cwd image = base ++ ["DISK_IMG=" ++ image, "disk_img"]) := by
  constructor
  · intro habs hne
    have hjoin : isabs (pjoin cwd image) = true := isabs_pjoin cwd image hcwd
    have habsp : abspath cwd (pjoin cwd image) = normpath (pjoin cwd image) := by
      unfold abspath
      rw [if_pos hjoin]
    refine ⟨?_, isabs_normpath _ hjoin⟩
    simp [diskImgCmdParts, hne, habs, habsp]
  · intro habs
    have hne : image ≠ "" := by
      intro he
      rw [he] at habs
      exact absurd habs (by decide)
    simp [diskImgCmdParts, hne, habs]

/-- C10: the run operation performs the complete build operation first;
the build's trace never contains a run execution, a non-zero build
result is returned by run unchanged with no run execution, and a zero
build result is followed by exactly one run execution appended to the
build's trace. -/
theorem run_builds_first (ce so sv : Bool) (mr rr : ExecOutcome) :
    Event.execRun ∉ (buildMain ce so mr sv).1 ∧
    ((buildMain ce so mr sv).2 ≠ 0 →
      runMain ce so mr sv rr = buildMain ce so mr sv) ∧
    ((buildMain ce so mr sv).2 = 0 →
      (runMain ce so mr sv rr).1 = (buildMain ce so mr sv).1 ++ [Event.execRun]) := by
  refine ⟨?_, ?_, ?_⟩
  · cases so <;> cases mr <;> cases ce <;> simp [buildMain]
  · intro h
    unfold runMain
    rw [if_pos h]
  · intro h
    unfold runMain
    rw [if_neg (by simp [h])]
    cases rr <;> rfl

/-! ## Witnesses -/

/-- Witness for C3 amended: exit code 101 is propagated by build,
clean, disk_img, run and single-pass clippy, while the matrix sweep
with a cell exiting 101 returns 1. -/
theorem exit_code_propagated_witness :
    (buildMain true true (ExecOutcome.exit 101) true).2 = 101 ∧
    (cleanMain true (ExecOutcome.exit 101)).2 = 101 ∧
    (diskImgMain ["make"] "/proj" "disk.img" true (ExecOutcome.exit 101)).2 = 101 ∧
    (runMain true true ExecOutcome.success true (ExecOutcome.exit 101)).2 = 101 ∧
    (clippyMain true true true true ["fs"] (ExecOutcome.exit 101)
        (fun _ => ExecOutcome.success)).2 = 101 ∧
    (clippyMain true true true true ["plat-aarch64-qemu", "fs"] ExecOutcome.success
        (fun _ => ExecOutcome.exit 101)).2 = 1 := by
  have h1 := exit_code_propagated 101 (by decide) true true ["make"] "/proj" "disk.img"
    ["fs"] (fun _ => ExecOutcome.success)
  have h2 := exit_code_propagated 101 (by decide) true true ["make"] "/proj" "disk.img"
    ["plat-aarch64-qemu", "fs"] (fun _ => ExecOutcome.exit 101)
  exact ⟨h1.1, h1.2.1, h1.2.2.1, h1.2.2.2.1, h1.2.2.2.2.1 (by decide),
    h2.2.2.2.2.2 ⟨cellFor ["fs"] "plat-aarch64-qemu", by decide, by decide⟩ (by decide)⟩

/-- Witness for C4 at the feature set `["plat-a-b", "fs"]`. -/
theorem cell_single_platform_witness :
    (cellFor ["fs"] "plat-a-b").combined_features =
      (cellFor ["fs"] "plat-a-b").plat :: nonPlatFeatures ["plat-a-b", "fs"] ∧
    (cellFor ["fs"] "plat-a-b").combined_features.filter
        (fun f => pyStartsWith f "plat-") = [(cellFor ["fs"] "plat-a-b").plat] :=
  cell_single_platform ["plat-a-b", "fs"] (cellFor ["fs"] "plat-a-b") (by decide)

/-- Witness for C5 at the feature set `["fs", "net"]`. -/
theorem no_plat_single_pass_witness :
    clippyPlan ["fs", "net"] = ClippyPlan.singlePass ["fs", "net"] ∧
    "--target" ∉ singlePassCmd ["fs", "net"] ∧
    (clippyMain true true true true ["fs", "net"] ExecOutcome.success
        (fun _ => ExecOutcome.success)).1 = [Event.execClippySingle] :=
  no_plat_single_pass ["fs", "net"] (by decide) ExecOutcome.success
    (fun _ => ExecOutcome.success)

/-- Witness for C6 at the platform feature `plat-foo-bar`, whose arch
token `foo` is not in the table. -/
theorem unknown_arch_no_target_witness :
    cellFor (nonPlatFeatures ["plat-foo-bar"]) "plat-foo-bar" ∈
      resolveCells ["plat-foo-bar"] ∧
    (cellFor (nonPlatFeatures ["plat-foo-bar"]) "plat-foo-bar").target = none ∧
    "--target" ∉ cellCmd (cellFor (nonPlatFeatures ["plat-foo-bar"]) "plat-foo-bar") :=
  unknown_arch_no_target ["plat-foo-bar"] "plat-foo-bar" (by decide) (by decide)

/-- Witness for C9 at working directory `/proj` with the relative image
path `data/disk.img`. -/
theorem disk_img_path_normalized_witness :
    diskImgCmdParts ["make"] "/proj" "data/disk.img" =
      ["make"] ++ ["DISK_IMG=" ++ normpath (pjoin "/proj" "data/disk.img"), "disk_img"] ∧
    isabs (normpath (pjoin "/proj" "data/disk.img")) = true :=
  (disk_img_path_normalized ["make"] "/proj" "data/disk.img" (by decide)).1
    (by decide) (by decide)

/-- Witness for C10: a build exiting 7 makes run return 7 with no run
execution, and a successful build appends exactly one run execution. -/
theorem run_builds_first_witness :
    Event.execRun ∉ (buildMain true true (ExecOutcome.exit 7) true).1 ∧
    runMain true true (ExecOutcome.exit 7) true ExecOutcome.success =
      buildMain true true (ExecOutcome.exit 7) true ∧
    (runMain true true ExecOutcome.success true ExecOutcome.success).1 =
      (buildMain true true ExecOutcome.success true).1 ++ [Event.execRun] :=
  ⟨(run_builds_first true true true (ExecOutcome.exit 7) ExecOutcome.success).1,
   (run_builds_first true true true (ExecOutcome.exit 7) ExecOutcome.success).2.1 (by decide),
   (run_builds_first true true true ExecOutcome.success ExecOutcome.success).2.2 (by decide)⟩

end Axvisor
